import Mathlib

/-
  Verification development for the multi-habit-tracker analytics engine.

  The analytics engine lives in Dashboard.js (calculateFrequencyBasedStreak,
  calculateFrequencyBasedSuccessRate, calculateAverageCompletionsPerPeriod,
  getFrequencyBasedThirtyDayView) and Utilities.js (getDaysBetweenDates,
  isSameDay, getHabitCompletionsForDate, wasHabitSuccessfulOnDate).

  Modelling choices:
  * Timestamps are integers in milliseconds (JS Date.getTime()).  We work in
    a single fixed time zone (UTC): the calendar day of a timestamp t is
    floor(t / 86400000).  Under this assumption `toISOString().split('T')[0]`
    equality (used by getHabitCompletionsForDate) and `isSameDay` (local
    year/month/day equality, used by the data-presence checks) are the same
    relation, namely equality of `dayOf`.
  * `checkDate.setDate(today.getDate() - i)` on a fresh `new Date()` equals
    "today minus i calendar days keeping the time of day", i.e. the
    timestamp today - i * 86400000 (DST is absent in our fixed-zone model).
  * A tracking row [Timestamp, HabitID, HabitName, Frequency, Target,
    ActualCompletions, Success, Comments, CreatedDate] is an `Event`.
    `entry[5] || 1` (JS falsy-default) is modelled as: a completion count of
    0 contributes 1.
  * JS floating-point division on these small integer quantities is exact;
    results of the rate/average calculators are modelled in ℚ.
-/

namespace HabitTracker

/-- One millisecond-day: 24*60*60*1000, the `oneDay` constant of
`getDaysBetweenDates`. -/
def msPerDay : Int := 86400000

/-- Calendar day of a timestamp (fixed-zone model): floor division of the
millisecond timestamp by one day.  This models both the ISO date key of
`getHabitCompletionsForDate` and the year/month/day triple of `isSameDay`. -/
def dayOf (t : Int) : Int := t.fdiv msPerDay

/-- Utilities.js `isSameDay(d1, d2)`: the two timestamps fall on the same
calendar day. -/
def isSameDay (d1 d2 : Int) : Bool := dayOf d1 == dayOf d2

/-- Utilities.js `getDaysBetweenDates(date1, date2)`:
`Math.ceil(Math.abs(date2 - date1) / oneDay)`, as exact integer ceiling
division of the absolute millisecond difference. -/
def getDaysBetweenDates (date1 date2 : Int) : Nat :=
  ((date2 - date1).natAbs + 86399999) / 86400000

/-- A row of the Tracking sheet (columns A..I), as read by the analytics
functions: entry[0] = Timestamp, entry[1] = HabitID, entry[2] = HabitName,
entry[3] = Frequency, entry[4] = TargetFrequencyPerPeriod,
entry[5] = ActualCompletions, entry[6] = Success, entry[7] = Comments,
entry[8] = CreatedDate. -/
structure Event where
  timestamp : Int
  habitId : String
  habitName : String
  frequency : String
  targetFrequencyPerPeriod : Nat
  actualCompletions : Nat
  success : Bool
  comments : String
  createdDate : Int
deriving Repr, DecidableEq

/-- Utilities.js `getHabitCompletionsForDate(trackingData, habitId, date)`:
filter to entries whose HabitID matches and whose timestamp's date key equals
`date`'s date key, then `reduce((total, entry) => total + (entry[5] || 1), 0)`.
A zero (falsy) completion count contributes 1. -/
def getHabitCompletionsForDate (trackingData : List Event) (habitId : String)
    (date : Int) : Nat :=
  (trackingData.filter fun e => e.habitId == habitId && isSameDay e.timestamp date).foldl
    (fun total e => total + (if e.actualCompletions == 0 then 1 else e.actualCompletions)) 0

/-- Utilities.js `wasHabitSuccessfulOnDate(trackingData, habitId, date,
targetFrequency)`: aggregated completions on that date reach the target. -/
def wasHabitSuccessfulOnDate (trackingData : List Event) (habitId : String)
    (date : Int) (targetFrequency : Nat) : Bool :=
  decide (targetFrequency ≤ getHabitCompletionsForDate trackingData habitId date)

/-- The backward day loop of Dashboard.js `calculateFrequencyBasedStreak`
(`for (let i = 0; i < 365; i++)`), with the day offset `i`, the remaining
iteration budget `fuel` (365 - i at entry) and the accumulator `streak`
explicit.  Each iteration checks day `today - i` days: on success increment
and continue; otherwise, if `i <= 1` and no tracking entry at all (any habit)
falls on that day, continue without incrementing; otherwise stop. -/
def streakFrom (trackingData : List Event) (habitId : String)
    (targetFrequency : Nat) (today : Int) : Nat → Nat → Nat → Nat
  | _, 0, streak => streak
  | i, fuel + 1, streak =>
    let checkDate : Int := today - (i : Int) * msPerDay
    if wasHabitSuccessfulOnDate trackingData habitId checkDate targetFrequency then
      streakFrom trackingData habitId targetFrequency today (i + 1) fuel (streak + 1)
    else
      let hasDataForDate := trackingData.any fun e => isSameDay e.timestamp checkDate
      if i ≤ 1 && !hasDataForDate then
        streakFrom trackingData habitId targetFrequency today (i + 1) fuel streak
      else
        streak

/-- Dashboard.js `calculateFrequencyBasedStreak(trackingData, habitId,
targetFrequency)`: 0 on an empty log, otherwise the backward scan from
`today` (passed explicitly here as the as-of timestamp) bounded by 365 days. -/
def calculateFrequencyBasedStreak (trackingData : List Event) (habitId : String)
    (targetFrequency : Nat) (today : Int) : Nat :=
  if trackingData.isEmpty then 0
  else streakFrom trackingData habitId targetFrequency today 0 365 0

/-- One iteration of the day loop of Dashboard.js
`calculateFrequencyBasedSuccessRate`: the pair accumulator is
(successfulDays, totalDaysWithData); `checkDate` is
`startDate.getTime() + i * 24*60*60*1000`. -/
def successRateStep (trackingData : List Event) (habitId : String)
    (targetFrequency : Nat) (startDate : Int) (acc : Nat × Nat) (i : Nat) : Nat × Nat :=
  let checkDate : Int := startDate + (i : Int) * msPerDay
  let hasDataForDate := trackingData.any fun e =>
    e.habitId == habitId && isSameDay e.timestamp checkDate
  if hasDataForDate then
    (acc.1 + (if wasHabitSuccessfulOnDate trackingData habitId checkDate targetFrequency
              then 1 else 0),
     acc.2 + 1)
  else acc

/-- Dashboard.js `calculateFrequencyBasedSuccessRate(trackingData, habitId,
targetFrequency, startDate, endDate)`: loop `i` from 0 to
`getDaysBetweenDates(startDate, endDate) - 1`, counting days with data and
successful days; returns `(successfulDays / totalDaysWithData) * 100` when
some day had data, else 0. -/
def calculateFrequencyBasedSuccessRate (trackingData : List Event) (habitId : String)
    (targetFrequency : Nat) (startDate endDate : Int) : ℚ :=
  let daysBetween := getDaysBetweenDates startDate endDate
  let counts := (List.range daysBetween).foldl
    (successRateStep trackingData habitId targetFrequency startDate) (0, 0)
  if counts.2 > 0 then ((counts.1 : ℚ) / (counts.2 : ℚ)) * 100 else 0

/-- Dashboard.js `calculateAverageCompletionsPerPeriod(trackingData, frequency,
startDate, endDate)`: 0 on an empty log; otherwise sum `entry[5] || 1` over
entries whose timestamp lies in `[startDate, endDate]`, and divide by
`max(1, daysBetween)` for Daily or `max(1, max(1, daysBetween) / 7)` weeks
for Weekly. -/
def calculateAverageCompletionsPerPeriod (trackingData : List Event)
    (frequency : String) (startDate endDate : Int) : ℚ :=
  if trackingData.isEmpty then 0
  else
    let totalCompletions :=
      (trackingData.filter fun e =>
        startDate ≤ e.timestamp && e.timestamp ≤ endDate).foldl
        (fun sum e => sum + (if e.actualCompletions == 0 then 1 else e.actualCompletions))
        (0 : Nat)
    let daysBetween : Nat := max 1 (getDaysBetweenDates startDate endDate)
    if frequency == "Weekly" then
      let weeksBetween : ℚ := max 1 ((daysBetween : ℚ) / 7)
      (totalCompletions : ℚ) / weeksBetween
    else
      (totalCompletions : ℚ) / (daysBetween : ℚ)

/-- The loop body of Dashboard.js `getFrequencyBasedThirtyDayView` for one
`currentDate`: '-' when aggregated completions are 0, '✓' on exactly meeting
the target, the count followed by '✓' when exceeding it, and
"completions/target" otherwise. -/
def thirtyDayIndicator (trackingData : List Event) (habitId : String)
    (targetFrequency : Nat) (currentDate : Int) : String :=
  let completions := getHabitCompletionsForDate trackingData habitId currentDate
  let wasSuccessful := decide (targetFrequency ≤ completions)
  if completions == 0 then "-"
  else if wasSuccessful then
    (if targetFrequency < completions then toString completions ++ "✓" else "✓")
  else toString completions ++ "/" ++ toString targetFrequency

/-- Dashboard.js `getFrequencyBasedThirtyDayView(trackingData, habitId,
targetFrequency)`: the loop `for (let i = 29; i >= 0; i--)` pushing one
indicator per day `today - i` days; element `j` of the result corresponds to
`i = 29 - j`.  `today` is passed explicitly as the as-of timestamp. -/
def getFrequencyBasedThirtyDayView (trackingData : List Event) (habitId : String)
    (targetFrequency : Nat) (today : Int) : List String :=
  (List.range 30).map fun j =>
    thirtyDayIndicator trackingData habitId targetFrequency
      (today - ((29 - j : Nat) : Int) * msPerDay)

/-- A concrete tracking row for scenario theorems: timestamp, habit id,
completion count and snapshotted success flag; remaining columns fixed. -/
def mkEv (t : Int) (h : String) (c : Nat) (s : Bool) : Event :=
  ⟨t, h, "name", "Daily", 1, c, s, "", t⟩

/-- The per-event contribution summed by the aggregator: `entry[5] || 1`,
i.e. a zero count contributes 1. -/
def completionContribution (e : Event) : Nat :=
  if e.actualCompletions == 0 then 1 else e.actualCompletions

lemma foldl_add_map_sum (f : Event → Nat) :
    ∀ (l : List Event) (n : Nat),
      l.foldl (fun total e => total + f e) n = n + (l.map f).sum := by
  intro l
  induction l with
  | nil => intro n; simp
  | cons a l ih => intro n; simp [List.foldl_cons, ih, Nat.add_assoc]

lemma match_pred_eq (habitId : String) (date : Int) (e : Event) :
    (e.habitId == habitId && isSameDay e.timestamp date)
      = decide (e.habitId = habitId ∧ dayOf e.timestamp = dayOf date) := by
  by_cases h1 : e.habitId = habitId <;> by_cases h2 : dayOf e.timestamp = dayOf date <;>
    simp [isSameDay, h1, h2]

lemma getHabitCompletionsForDate_eq_sum (log : List Event) (habitId : String)
    (date : Int) :
    getHabitCompletionsForDate log habitId date =
      ((log.filter fun e =>
          decide (e.habitId = habitId ∧ dayOf e.timestamp = dayOf date)).map
        completionContribution).sum := by
  unfold getHabitCompletionsForDate
  rw [List.filter_congr (fun e _ => match_pred_eq habitId date e),
    foldl_add_map_sum (fun e => if e.actualCompletions == 0 then 1 else e.actualCompletions)]
  simp only [Nat.zero_add]
  rfl

/-- C3: `getHabitCompletionsForDate` returns the sum of the completion counts
of exactly the events matching the habit id whose occurrence date is the same
calendar day as the given date, an absent/zero count contributing 1; it
returns 0 when no event matches; and two same-day events for the same habit
with counts 2 and 1 aggregate to 3. -/
theorem completionsOnDate_spec_c3 :
    (∀ (log : List Event) (habitId : String) (date : Int),
      getHabitCompletionsForDate log habitId date =
        ((log.filter fun e =>
            decide (e.habitId = habitId ∧ dayOf e.timestamp = dayOf date)).map
          completionContribution).sum) ∧
    (∀ (log : List Event) (habitId : String) (date : Int),
      (∀ e ∈ log, ¬(e.habitId = habitId ∧ dayOf e.timestamp = dayOf date)) →
      getHabitCompletionsForDate log habitId date = 0) ∧
    getHabitCompletionsForDate
      [mkEv 100 "A" 2 true, mkEv 7000 "A" 1 false] "A" 50 = 3 := by
  refine ⟨getHabitCompletionsForDate_eq_sum, ?_, by decide⟩
  intro log habitId date hnone
  rw [getHabitCompletionsForDate_eq_sum]
  have : log.filter (fun e =>
      decide (e.habitId = habitId ∧ dayOf e.timestamp = dayOf date)) = [] := by
    simp only [List.filter_eq_nil_iff]
    intro e he
    simpa using hnone e he
  rw [this]
  rfl

/-- Witness for C3's no-match conjunct at a concrete log with no entry for
the queried habit and date. -/
theorem completionsOnDate_spec_c3_witness :
    (∀ e ∈ ([mkEv 100 "B" 2 true] : List Event),
      ¬(e.habitId = "A" ∧ dayOf e.timestamp = dayOf 50)) ∧
    getHabitCompletionsForDate [mkEv 100 "B" 2 true] "A" 50 = 0 :=
  ⟨by decide, completionsOnDate_spec_c3.2.1 [mkEv 100 "B" 2 true] "A" 50 (by decide)⟩

/-- C9: the aggregator is invariant under reordering of the input log. -/
theorem completionsOnDate_perm_c9 (log₁ log₂ : List Event)
    (hperm : log₁.Perm log₂) (habitId : String) (date : Int) :
    getHabitCompletionsForDate log₁ habitId date =
      getHabitCompletionsForDate log₂ habitId date := by
  rw [getHabitCompletionsForDate_eq_sum, getHabitCompletionsForDate_eq_sum]
  exact ((hperm.filter _).map completionContribution).sum_eq

/-- Witness for C9 at a concrete two-element log and its reversal. -/
theorem completionsOnDate_perm_c9_witness :
    ([mkEv 100 "A" 2 true, mkEv 7000 "A" 1 false] : List Event).Perm
      [mkEv 7000 "A" 1 false, mkEv 100 "A" 2 true] ∧
    getHabitCompletionsForDate [mkEv 100 "A" 2 true, mkEv 7000 "A" 1 false] "A" 50 =
      getHabitCompletionsForDate [mkEv 7000 "A" 1 false, mkEv 100 "A" 2 true] "A" 50 :=
  ⟨by decide,
    completionsOnDate_perm_c9 _ _ (by decide) "A" 50⟩

/-- Day-level form of the aggregator: total completions of a habit on the
calendar day `d` (the aggregator applied to any instant of that day). -/
def completionsOnDay (log : List Event) (habitId : String) (d : Int) : Nat :=
  ((log.filter fun e => e.habitId == habitId && (dayOf e.timestamp == d)).map
    completionContribution).sum

lemma getHabitCompletionsForDate_eq_day (log : List Event) (habitId : String)
    (date : Int) :
    getHabitCompletionsForDate log habitId date =
      completionsOnDay log habitId (dayOf date) := by
  unfold getHabitCompletionsForDate completionsOnDay
  rw [foldl_add_map_sum (fun e => if e.actualCompletions == 0 then 1 else e.actualCompletions)]
  simp only [Nat.zero_add]
  rfl

/-- Whether some tracking entry of this habit falls on calendar day `d`
(the data-presence check of the success-rate loop, day-level form). -/
def dayHasData (log : List Event) (habitId : String) (d : Int) : Bool :=
  log.any fun e => e.habitId == habitId && (dayOf e.timestamp == d)

/-- Whether day `d` both has data for the habit and meets the target. -/
def daySuccessful (log : List Event) (habitId : String) (targetFrequency : Nat)
    (d : Int) : Bool :=
  dayHasData log habitId d && decide (targetFrequency ≤ completionsOnDay log habitId d)

lemma hasData_eq_day (log : List Event) (habitId : String) (ts : Int) :
    (log.any fun e => e.habitId == habitId && isSameDay e.timestamp ts)
      = dayHasData log habitId (dayOf ts) := rfl

lemma wasSuccessful_eq_day (log : List Event) (habitId : String) (ts : Int)
    (t : Nat) :
    wasHabitSuccessfulOnDate log habitId ts t
      = decide (t ≤ completionsOnDay log habitId (dayOf ts)) := by
  simp [wasHabitSuccessfulOnDate, getHabitCompletionsForDate_eq_day]

/-- Count of days with data among the first `n` days starting at instant `s`. -/
def daysWithData (log : List Event) (habitId : String) (s : Int) (n : Nat) : Nat :=
  ((List.range n).filter fun (i : Nat) =>
    dayHasData log habitId (dayOf (s + (i : Int) * msPerDay))).length

/-- Count of successful days with data among the first `n` days from `s`. -/
def successfulDaysWithData (log : List Event) (habitId : String)
    (targetFrequency : Nat) (s : Int) (n : Nat) : Nat :=
  ((List.range n).filter fun (i : Nat) =>
    daySuccessful log habitId targetFrequency (dayOf (s + (i : Int) * msPerDay))).length

lemma successRateStep_eq (log : List Event) (habitId : String) (t : Nat)
    (s : Int) (acc : Nat × Nat) (i : Nat) :
    successRateStep log habitId t s acc i =
      (acc.1 + (if daySuccessful log habitId t (dayOf (s + (i : Int) * msPerDay))
                then 1 else 0),
       acc.2 + (if dayHasData log habitId (dayOf (s + (i : Int) * msPerDay))
                then 1 else 0)) := by
  simp only [successRateStep, daySuccessful, hasData_eq_day, wasSuccessful_eq_day]
  by_cases hd : dayHasData log habitId (dayOf (s + (i : Int) * msPerDay)) <;>
    simp [hd]

lemma successRate_foldl_counts (log : List Event) (habitId : String) (t : Nat)
    (s : Int) :
    ∀ (l : List Nat) (acc : Nat × Nat),
      l.foldl (successRateStep log habitId t s) acc =
        (acc.1 + (l.filter fun (i : Nat) =>
            daySuccessful log habitId t (dayOf (s + (i : Int) * msPerDay))).length,
         acc.2 + (l.filter fun (i : Nat) =>
            dayHasData log habitId (dayOf (s + (i : Int) * msPerDay))).length) := by
  intro l
  induction l with
  | nil => intro acc; simp
  | cons a l ih =>
    intro acc
    rw [List.foldl_cons, ih, successRateStep_eq]
    by_cases hs : daySuccessful log habitId t (dayOf (s + (a : Int) * msPerDay)) <;>
      by_cases hd : dayHasData log habitId (dayOf (s + (a : Int) * msPerDay)) <;>
        simp [hs, hd, List.filter_cons, Nat.add_assoc, Nat.add_comm 1]

lemma successRate_eq_counts (log : List Event) (habitId : String) (t : Nat)
    (s e : Int) :
    calculateFrequencyBasedSuccessRate log habitId t s e =
      (if 0 < daysWithData log habitId s (getDaysBetweenDates s e)
       then ((successfulDaysWithData log habitId t s (getDaysBetweenDates s e) : ℚ) /
              (daysWithData log habitId s (getDaysBetweenDates s e) : ℚ)) * 100
       else 0) := by
  unfold calculateFrequencyBasedSuccessRate daysWithData successfulDaysWithData
  dsimp only
  rw [successRate_foldl_counts]
  simp

lemma filter_length_mono {α : Type} (p q : α → Bool)
    (himp : ∀ a, p a = true → q a = true) :
    ∀ l : List α, (l.filter p).length ≤ (l.filter q).length := by
  intro l
  induction l with
  | nil => simp
  | cons a l ih =>
    by_cases hp : p a
    · rw [List.filter_cons_of_pos hp, List.filter_cons_of_pos (himp a hp)]
      simpa using ih
    · rw [List.filter_cons_of_neg hp]
      cases hq : q a with
      | false =>
        rw [List.filter_cons_of_neg (by simp [hq])]
        exact ih
      | true =>
        rw [List.filter_cons_of_pos hq]
        exact ih.trans (Nat.le_succ _)

lemma successful_le_daysWithData (log : List Event) (habitId : String) (t : Nat)
    (s : Int) (n : Nat) :
    successfulDaysWithData log habitId t s n ≤ daysWithData log habitId s n := by
  unfold successfulDaysWithData daysWithData
  apply filter_length_mono
  intro a ha
  simp only [daySuccessful, Bool.and_eq_true] at ha
  exact ha.1

lemma successRate_eq_formula (log : List Event) (habitId : String) (t : Nat)
    (s e : Int) :
    calculateFrequencyBasedSuccessRate log habitId t s e =
      100 * (successfulDaysWithData log habitId t s (getDaysBetweenDates s e) : ℚ) /
        (daysWithData log habitId s (getDaysBetweenDates s e) : ℚ) := by
  rw [successRate_eq_counts]
  rcases Nat.eq_zero_or_pos (daysWithData log habitId s (getDaysBetweenDates s e))
    with h0 | hpos
  · simp [h0]
  · rw [if_pos hpos]
    ring

/-- C2: the success rate counts in its denominator only the days of the
window with at least one event for the habit: the result is
100 * (qualifying days with data) / (days with data), the 0/0 quotient
reading as the code's 0 return; and a window where only 2 of 10 days have
any data, 1 of which met the target, yields exactly 50, not 10. -/
theorem successRate_daysWithData_c2 :
    (∀ (log : List Event) (habitId : String) (t : Nat) (s e : Int),
      calculateFrequencyBasedSuccessRate log habitId t s e =
        100 * (successfulDaysWithData log habitId t s (getDaysBetweenDates s e) : ℚ) /
          (daysWithData log habitId s (getDaysBetweenDates s e) : ℚ)) ∧
    calculateFrequencyBasedSuccessRate
      [mkEv (2 * msPerDay + 100) "A" 2 true, mkEv (5 * msPerDay + 7) "A" 1 false]
      "A" 2 0 (10 * msPerDay) = 50 := by
  refine ⟨successRate_eq_formula, ?_⟩
  rw [successRate_eq_formula]
  have hQ : successfulDaysWithData
      [mkEv (2 * msPerDay + 100) "A" 2 true, mkEv (5 * msPerDay + 7) "A" 1 false]
      "A" 2 0 (getDaysBetweenDates 0 (10 * msPerDay)) = 1 := by decide
  have hD : daysWithData
      [mkEv (2 * msPerDay + 100) "A" 2 true, mkEv (5 * msPerDay + 7) "A" 1 false]
      "A" 0 (getDaysBetweenDates 0 (10 * msPerDay)) = 2 := by decide
  rw [hQ, hD]
  norm_num

/-- C7: the success rate returns 0 — not an undefined quotient — whenever no
day of the window has any data for the habit. -/
theorem successRate_zero_days_c7 (log : List Event) (habitId : String)
    (t : Nat) (s e : Int)
    (hnone : ∀ i < getDaysBetweenDates s e,
      dayHasData log habitId (dayOf (s + (i : Int) * msPerDay)) = false) :
    calculateFrequencyBasedSuccessRate log habitId t s e = 0 := by
  rw [successRate_eq_counts]
  have hD : daysWithData log habitId s (getDaysBetweenDates s e) = 0 := by
    unfold daysWithData
    rw [List.length_eq_zero, List.filter_eq_nil_iff]
    intro a ha
    simp only [List.mem_range] at ha
    simp [hnone a ha]
  simp [hD]

/-- Witness for C7 on an empty log over a 10-day window. -/
theorem successRate_zero_days_c7_witness :
    (∀ i < getDaysBetweenDates 0 (10 * msPerDay),
      dayHasData [] "A" (dayOf ((0 : Int) + (i : Int) * msPerDay)) = false) ∧
    calculateFrequencyBasedSuccessRate [] "A" 1 0 (10 * msPerDay) = 0 :=
  ⟨by decide, successRate_zero_days_c7 [] "A" 1 0 (10 * msPerDay) (by decide)⟩

/-- The calendar days the success-rate loop classifies for a window:
`dayOf(startDate + i*oneDay)` for `0 ≤ i < getDaysBetweenDates(start, end)`. -/
def successRateDaysExamined (startDate endDate : Int) : List Int :=
  (List.range (getDaysBetweenDates startDate endDate)).map
    fun (i : Nat) => dayOf (startDate + (i : Int) * msPerDay)

lemma dayOf_add_days (s : Int) (i : Nat) :
    dayOf (s + (i : Int) * msPerDay) = dayOf s + i := by
  unfold dayOf msPerDay
  rw [Int.fdiv_eq_ediv _ (by norm_num), Int.fdiv_eq_ediv _ (by norm_num),
    Int.add_mul_ediv_right _ _ (by norm_num)]

lemma daysBetween_whole (s : Int) (k : Nat) :
    getDaysBetweenDates s (s + (k : Int) * msPerDay) = k := by
  unfold getDaysBetweenDates msPerDay
  have h1 : s + (k : Int) * 86400000 - s = (k : Int) * 86400000 := by ring
  rw [h1]
  have h2 : ((k : Int) * 86400000).natAbs = k * 86400000 := by
    simp [Int.natAbs_mul]
  rw [h2, Nat.mul_comm, Nat.mul_add_div (by norm_num)]
  norm_num

/-- C8 (amended): the success-rate loop classifies exactly
`getDaysBetweenDates(start, end)` consecutive calendar days beginning at
`start`'s own day, and the result is computed from precisely those days; the
end day is **not** always among them — for a window that is a whole positive
number of days (e.g. midnight-to-midnight), every examined day is strictly
before the end day. -/
theorem successRate_window_c8_amended :
    (∀ (s e : Int),
      (successRateDaysExamined s e).length = getDaysBetweenDates s e) ∧
    (∀ (s : Int) (i : Nat),
      dayOf (s + (i : Int) * msPerDay) = dayOf s + i) ∧
    (∀ (log : List Event) (habitId : String) (t : Nat) (s e : Int),
      calculateFrequencyBasedSuccessRate log habitId t s e =
        100 * (((successRateDaysExamined s e).filter
                  (daySuccessful log habitId t)).length : ℚ) /
          (((successRateDaysExamined s e).filter (dayHasData log habitId)).length : ℚ)) ∧
    (∀ (s : Int) (k : Nat), 0 < k →
      ∀ d ∈ successRateDaysExamined s (s + (k : Int) * msPerDay),
        d < dayOf (s + (k : Int) * msPerDay)) := by
  refine ⟨?_, dayOf_add_days, ?_, ?_⟩
  · intro s e
    simp [successRateDaysExamined]
  · intro log habitId t s e
    rw [successRate_eq_formula]
    unfold successRateDaysExamined successfulDaysWithData daysWithData
    rw [List.filter_map, List.filter_map, List.length_map, List.length_map]
    rfl
  · intro s k hk d hd
    unfold successRateDaysExamined at hd
    rw [daysBetween_whole] at hd
    simp only [List.mem_map, List.mem_range] at hd
    obtain ⟨i, hik, rfl⟩ := hd
    rw [dayOf_add_days, dayOf_add_days]
    exact Int.add_lt_add_left (by exact_mod_cast hik) _

/-- Witness for C8's amended end-day-exclusion conjunct on the concrete
window starting at 0 with 2 whole days: day 0 is examined and lies strictly
before the end day. -/
theorem successRate_window_c8_amended_witness :
    0 < 2 ∧ (0 : Int) ∈ successRateDaysExamined 0 (0 + ((2 : Nat) : Int) * msPerDay) ∧
    (0 : Int) < dayOf (0 + ((2 : Nat) : Int) * msPerDay) :=
  ⟨by decide, by decide,
    successRate_window_c8_amended.2.2.2 0 2 (by decide) 0 (by decide)⟩

/-- C8 counterexample: the claim says every day from start to end
**inclusive** is classified.  On the 2-whole-day window [0, 2·oneDay] the
day-difference utility gives 2, only days 0 and 1 are examined, and an event
on the end day (day 2) that meets the target is never seen: the rate is 0
although the end day has qualifying data. -/
theorem successRate_endday_c8_counterexample :
    getDaysBetweenDates 0 (2 * msPerDay) = 2 ∧
    getHabitCompletionsForDate [mkEv (2 * msPerDay + 5) "A" 5 true] "A"
      (2 * msPerDay) = 5 ∧
    calculateFrequencyBasedSuccessRate [mkEv (2 * msPerDay + 5) "A" 5 true]
      "A" 1 0 (2 * msPerDay) = 0 ∧
    (successRateDaysExamined 0 (2 * msPerDay)).contains (dayOf (2 * msPerDay)) = false := by
  refine ⟨by decide, by decide, ?_, by decide⟩
  rw [successRate_eq_counts]
  have hD : daysWithData [mkEv (2 * msPerDay + 5) "A" 5 true] "A" 0
      (getDaysBetweenDates 0 (2 * msPerDay)) = 0 := by decide
  simp [hD]

/-- Sum of the completion counts (zero/absent counting as 1) of all events
whose timestamp lies within `[s, e]`. -/
def totalCompletionsInWindow (log : List Event) (s e : Int) : Nat :=
  ((log.filter fun ev => s ≤ ev.timestamp && ev.timestamp ≤ e).map
    completionContribution).sum

lemma cast_max_one_div_seven (d : Nat) :
    max 1 (((max 1 d : Nat) : ℚ) / 7) = max 1 ((d : ℚ) / 7) := by
  rcases Nat.eq_zero_or_pos d with h | h
  · subst h
    rw [show ((max 1 0 : Nat) : ℚ) = 1 by norm_num,
      max_eq_left (by norm_num), max_eq_left (by norm_num)]
  · rw [Nat.max_eq_right h]

lemma avg_eq_formula (log : List Event) (frequency : String) (s e : Int) :
    calculateAverageCompletionsPerPeriod log frequency s e =
      (totalCompletionsInWindow log s e : ℚ) /
        (if frequency == "Weekly"
         then max 1 ((getDaysBetweenDates s e : ℚ) / 7)
         else max 1 (getDaysBetweenDates s e : ℚ)) := by
  unfold calculateAverageCompletionsPerPeriod totalCompletionsInWindow
  cases heq : log.isEmpty with
  | true =>
    have hl : log = [] := List.isEmpty_iff.mp heq
    subst hl
    simp
  | false =>
    rw [if_neg (by simp [heq])]
    dsimp only
    rw [foldl_add_map_sum (fun e => if e.actualCompletions == 0 then 1 else e.actualCompletions)]
    simp only [Nat.zero_add]
    by_cases hw : (frequency == "Weekly") = true
    · rw [if_pos hw, if_pos hw, cast_max_one_div_seven]
      rfl
    · rw [if_neg hw, if_neg hw, Nat.cast_max]
      rfl

/-- C6: the average sums the completion counts of events with timestamp in
`[start, end]` and divides by the elapsed periods — days for Daily,
max(1, days/7) for Weekly, the divisor never falling below 1 — and a Weekly
14-day window with total completions 21 yields 21 / max(1, 14/7) = 10.5. -/
theorem averageCompletions_c6 :
    (∀ (log : List Event) (frequency : String) (s e : Int),
      calculateAverageCompletionsPerPeriod log frequency s e =
        (totalCompletionsInWindow log s e : ℚ) /
          (if frequency == "Weekly"
           then max 1 ((getDaysBetweenDates s e : ℚ) / 7)
           else max 1 (getDaysBetweenDates s e : ℚ))) ∧
    calculateAverageCompletionsPerPeriod [mkEv (5 * msPerDay) "A" 21 true]
      "Weekly" 0 (14 * msPerDay) = 21 / 2 := by
  refine ⟨avg_eq_formula, ?_⟩
  rw [avg_eq_formula]
  have ht : totalCompletionsInWindow [mkEv (5 * msPerDay) "A" 21 true]
      0 (14 * msPerDay) = 21 := by decide
  have hd : getDaysBetweenDates 0 (14 * msPerDay) = 14 := by decide
  rw [ht, hd]
  norm_num

/-- The 4-way per-day classification as the spec states it: no data,
exactly met, over target (count then check mark), under target
(count/target). -/
def indicatorOfCompletions (c t : Nat) : String :=
  if c = 0 then "-"
  else if c = t then "✓"
  else if t < c then toString c ++ "✓"
  else toString c ++ "/" ++ toString t

lemma thirtyDayIndicator_eq_indicator (log : List Event) (habitId : String)
    (t : Nat) (d : Int) :
    thirtyDayIndicator log habitId t d =
      indicatorOfCompletions (getHabitCompletionsForDate log habitId d) t := by
  unfold thirtyDayIndicator indicatorOfCompletions
  by_cases h0 : getHabitCompletionsForDate log habitId d = 0
  · simp [h0]
  · rcases lt_trichotomy (getHabitCompletionsForDate log habitId d) t with hlt | heq | hgt
    · simp [h0, Nat.not_le.mpr hlt, Nat.ne_of_lt hlt, Nat.not_lt.mpr (Nat.le_of_lt hlt)]
    · simp [h0, heq]
    · simp [h0, Nat.le_of_lt hgt, hgt, Nat.ne_of_gt hgt]

lemma thirtyDayView_getD (log : List Event) (habitId : String) (t : Nat)
    (asOf : Int) (j : Nat) (hj : j < 30) :
    (getFrequencyBasedThirtyDayView log habitId t asOf).getD j "" =
      thirtyDayIndicator log habitId t (asOf - ((29 - j : Nat) : Int) * msPerDay) := by
  unfold getFrequencyBasedThirtyDayView
  rw [List.getD_eq_getElem?_getD, List.getElem?_map, List.getElem?_range hj]
  rfl

/-- C4: with target ≥ 1, every element of the thirty-day view renders that
day's aggregated completions `c` by the 4-way rule: 0 → "-", c = t → "✓",
c > t → count then "✓", 0 < c < t → "c/t". -/
theorem thirtyDayView_classification_c4 (log : List Event) (habitId : String)
    (t : Nat) (asOf : Int) (ht : 1 ≤ t) :
    ∀ j < 30, (getFrequencyBasedThirtyDayView log habitId t asOf).getD j "" =
      indicatorOfCompletions
        (getHabitCompletionsForDate log habitId
          (asOf - ((29 - j : Nat) : Int) * msPerDay)) t := by
  intro j hj
  rw [thirtyDayView_getD log habitId t asOf j hj, thirtyDayIndicator_eq_indicator]

/-- Witness for C4 at the empty log, target 1, as-of 0, index 0. -/
theorem thirtyDayView_classification_c4_witness :
    1 ≤ 1 ∧ 0 < 30 ∧
    (getFrequencyBasedThirtyDayView [] "A" 1 0).getD 0 "" =
      indicatorOfCompletions
        (getHabitCompletionsForDate [] "A" ((0 : Int) - ((29 - 0 : Nat) : Int) * msPerDay)) 1 :=
  ⟨by decide, by decide, thirtyDayView_classification_c4 [] "A" 1 0 (by decide) 0 (by decide)⟩

/-- C5: the thirty-day view always has exactly 30 elements; element `j`
(oldest first) is the indicator of day `asOf - 29 + j` days, so the sequence
covers `asOf-29 .. asOf` inclusive in order; and on an empty log every
element is "-". -/
theorem thirtyDayView_shape_c5 :
    (∀ (log : List Event) (habitId : String) (t : Nat) (asOf : Int),
      (getFrequencyBasedThirtyDayView log habitId t asOf).length = 30) ∧
    (∀ (log : List Event) (habitId : String) (t : Nat) (asOf : Int),
      ∀ j < 30, (getFrequencyBasedThirtyDayView log habitId t asOf).getD j "" =
        thirtyDayIndicator log habitId t (asOf - 29 * msPerDay + (j : Int) * msPerDay)) ∧
    (∀ (habitId : String) (t : Nat) (asOf : Int),
      getFrequencyBasedThirtyDayView [] habitId t asOf = List.replicate 30 "-") := by
  refine ⟨?_, ?_, ?_⟩
  · intro log habitId t asOf
    simp [getFrequencyBasedThirtyDayView]
  · intro log habitId t asOf j hj
    rw [thirtyDayView_getD log habitId t asOf j hj]
    have hcast : ((29 - j : Nat) : Int) = 29 - (j : Int) := by
      have : j ≤ 29 := Nat.lt_succ_iff.mp hj
      push_cast [this]
      ring
    rw [hcast]
    ring_nf
  · intro habitId t asOf
    unfold getFrequencyBasedThirtyDayView
    rw [List.map_congr_left (fun j _ => show thirtyDayIndicator [] habitId t
      (asOf - ((29 - j : Nat) : Int) * msPerDay) = "-" from rfl)]
    simp

/-- Witness for C5's coverage conjunct at the empty log, index 3. -/
theorem thirtyDayView_shape_c5_witness :
    3 < 30 ∧
    (getFrequencyBasedThirtyDayView [] "A" 1 0).getD 3 "" =
      thirtyDayIndicator [] "A" 1 ((0 : Int) - 29 * msPerDay + (3 : Int) * msPerDay) :=
  ⟨by decide, thirtyDayView_shape_c5.2.1 [] "A" 1 0 3 (by decide)⟩

lemma streakFrom_of_success (log : List Event) (habitId : String) (t : Nat)
    (today : Int) (i fuel streak : Nat)
    (h : wasHabitSuccessfulOnDate log habitId (today - (i : Int) * msPerDay) t = true) :
    streakFrom log habitId t today i (fuel + 1) streak =
      streakFrom log habitId t today (i + 1) fuel (streak + 1) := by
  simp only [streakFrom, h, if_true]

lemma streakFrom_skip (log : List Event) (habitId : String) (t : Nat)
    (today : Int) (i fuel streak : Nat)
    (hsucc : wasHabitSuccessfulOnDate log habitId (today - (i : Int) * msPerDay) t = false)
    (hi : i ≤ 1)
    (hdata : (log.any fun e => isSameDay e.timestamp (today - (i : Int) * msPerDay)) = false) :
    streakFrom log habitId t today i (fuel + 1) streak =
      streakFrom log habitId t today (i + 1) fuel streak := by
  simp [streakFrom, hsucc, hdata, hi]

lemma streakFrom_stop (log : List Event) (habitId : String) (t : Nat)
    (today : Int) (i fuel streak : Nat)
    (hsucc : wasHabitSuccessfulOnDate log habitId (today - (i : Int) * msPerDay) t = false)
    (hi : 2 ≤ i) :
    streakFrom log habitId t today i (fuel + 1) streak = streak := by
  have hni : ¬ i ≤ 1 := by omega
  simp [streakFrom, hsucc, hni]

lemma streakFrom_stop_of_data (log : List Event) (habitId : String) (t : Nat)
    (today : Int) (i fuel streak : Nat)
    (hsucc : wasHabitSuccessfulOnDate log habitId (today - (i : Int) * msPerDay) t = false)
    (hdata : (log.any fun e => isSameDay e.timestamp (today - (i : Int) * msPerDay)) = true) :
    streakFrom log habitId t today i (fuel + 1) streak = streak := by
  simp [streakFrom, hsucc, hdata]

/-- Modelled from the spec's words for the refinement comparison of C1: the
same backward scan as `streakFrom`, except that the data-presence check is
restricted to events of `habitId` ("check whether any event exists for
habitId on d"), where the source checks any event of any habit. -/
def streakFromSpecC1 (trackingData : List Event) (habitId : String)
    (targetFrequency : Nat) (today : Int) : Nat → Nat → Nat → Nat
  | _, 0, streak => streak
  | i, fuel + 1, streak =>
    let checkDate : Int := today - (i : Int) * msPerDay
    if wasHabitSuccessfulOnDate trackingData habitId checkDate targetFrequency then
      streakFromSpecC1 trackingData habitId targetFrequency today (i + 1) fuel (streak + 1)
    else
      let hasDataForDate := trackingData.any fun e =>
        e.habitId == habitId && isSameDay e.timestamp checkDate
      if i ≤ 1 && !hasDataForDate then
        streakFromSpecC1 trackingData habitId targetFrequency today (i + 1) fuel streak
      else
        streak

/-- Modelled from the spec's words (refinement comparison for C1): the streak
with the habit-filtered grace check. -/
def currentStreakSpecC1 (trackingData : List Event) (habitId : String)
    (targetFrequency : Nat) (today : Int) : Nat :=
  if trackingData.isEmpty then 0
  else streakFromSpecC1 trackingData habitId targetFrequency today 0 365 0

/-- C1 counterexample: the claim says a non-qualifying day is skipped iff no
event exists **for that habitId** on it at offset 0 or 1.  With an event of
another habit "B" on the as-of day and a qualifying "A" event the day
before, the code breaks at offset 0 (its presence check ignores the habit
id) and returns streak 0, while the claimed rule would skip the as-of day
and return 1. -/
theorem streak_skip_rule_c1_counterexample :
    calculateFrequencyBasedStreak
      [mkEv (10 * msPerDay + 100) "B" 1 true, mkEv (9 * msPerDay + 50) "A" 1 true]
      "A" 1 (10 * msPerDay + 500) = 0 ∧
    currentStreakSpecC1
      [mkEv (10 * msPerDay + 100) "B" 1 true, mkEv (9 * msPerDay + 50) "A" 1 true]
      "A" 1 (10 * msPerDay + 500) = 1 ∧
    dayHasData
      [mkEv (10 * msPerDay + 100) "B" 1 true, mkEv (9 * msPerDay + 50) "A" 1 true]
      "A" (dayOf (10 * msPerDay + 500)) = false ∧
    wasHabitSuccessfulOnDate
      [mkEv (10 * msPerDay + 100) "B" 1 true, mkEv (9 * msPerDay + 50) "A" 1 true]
      "A" (10 * msPerDay + 500 - 1 * msPerDay) 1 = true := by
  refine ⟨by decide, by decide, by decide, by decide⟩

/-- C1 (amended): in the backward scan, a non-qualifying day is skipped
without breaking (and without incrementing) iff it is at offset 0 or 1 from
the as-of date and **no event of any habit** falls on it; in every other
non-qualifying case the scan stops.  A day with no data at all at offset 0
therefore never breaks the streak by itself, and a log with qualifying
completions on the as-of day and the previous 4 days and nothing before
yields streak 5. -/
theorem streak_skip_rule_c1_amended :
    (∀ (log : List Event) (habitId : String) (t : Nat) (today : Int)
        (i fuel streak : Nat),
      wasHabitSuccessfulOnDate log habitId (today - (i : Int) * msPerDay) t = false →
      ((i ≤ 1 ∧ (log.any fun e =>
            isSameDay e.timestamp (today - (i : Int) * msPerDay)) = false) →
        streakFrom log habitId t today i (fuel + 1) streak =
          streakFrom log habitId t today (i + 1) fuel streak) ∧
      (¬(i ≤ 1 ∧ (log.any fun e =>
            isSameDay e.timestamp (today - (i : Int) * msPerDay)) = false) →
        streakFrom log habitId t today i (fuel + 1) streak = streak)) ∧
    (∀ (log : List Event) (habitId : String) (t : Nat) (asOf : Int),
      1 ≤ t →
      (∀ k : Nat, k ≤ 4 →
        wasHabitSuccessfulOnDate log habitId (asOf - (k : Int) * msPerDay) t = true) →
      getHabitCompletionsForDate log habitId (asOf - (5 : Int) * msPerDay) = 0 →
      calculateFrequencyBasedStreak log habitId t asOf = 5) := by
  constructor
  · intro log habitId t today i fuel streak hsucc
    constructor
    · intro ⟨hi, hdata⟩
      exact streakFrom_skip log habitId t today i fuel streak hsucc hi hdata
    · intro hnot
      by_cases hi : i ≤ 1
      · have hdata : (log.any fun e =>
            isSameDay e.timestamp (today - (i : Int) * msPerDay)) = true := by
          rcases Bool.eq_false_or_eq_true
            (log.any fun e => isSameDay e.timestamp (today - (i : Int) * msPerDay))
            with h | h
          · exact h
          · exact absurd ⟨hi, h⟩ hnot
        exact streakFrom_stop_of_data log habitId t today i fuel streak hsucc hdata
      · exact streakFrom_stop log habitId t today i fuel streak hsucc (by omega)
  · intro log habitId t asOf ht hsucc h5
    have hne : log.isEmpty = false := by
      cases hlog : log with
      | nil =>
        have h0 := hsucc 0 (by norm_num)
        rw [hlog] at h0
        simp [wasHabitSuccessfulOnDate, getHabitCompletionsForDate] at h0
        omega
      | cons a l => rfl
    unfold calculateFrequencyBasedStreak
    rw [hne]
    simp only [Bool.false_eq_true, if_false]
    have hfail : wasHabitSuccessfulOnDate log habitId
        (asOf - ((5 : Nat) : Int) * msPerDay) t = false := by
      have : ((5 : Nat) : Int) = (5 : Int) := by norm_num
      rw [this, wasHabitSuccessfulOnDate, h5]
      simp
      omega
    have s0 := streakFrom_of_success log habitId t asOf 0 364 0
      (by simpa using hsucc 0 (by norm_num))
    have s1 := streakFrom_of_success log habitId t asOf 1 363 1
      (by simpa using hsucc 1 (by norm_num))
    have s2 := streakFrom_of_success log habitId t asOf 2 362 2
      (by simpa using hsucc 2 (by norm_num))
    have s3 := streakFrom_of_success log habitId t asOf 3 361 3
      (by simpa using hsucc 3 (by norm_num))
    have s4 := streakFrom_of_success log habitId t asOf 4 360 4
      (by simpa using hsucc 4 (by norm_num))
    have s5 := streakFrom_stop log habitId t asOf 5 359 5 hfail (by norm_num)
    calc streakFrom log habitId t asOf 0 365 0
        = streakFrom log habitId t asOf 1 364 1 := s0
      _ = streakFrom log habitId t asOf 2 363 2 := s1
      _ = streakFrom log habitId t asOf 3 362 3 := s2
      _ = streakFrom log habitId t asOf 4 361 4 := s3
      _ = streakFrom log habitId t asOf 5 360 5 := s4
      _ = 5 := s5

/-- Witness for C1 (amended) at a concrete qualifying 5-day log: events with
count 1 (target 1) on days 10 down to 6 and nothing else. -/
theorem streak_skip_rule_c1_amended_witness :
    1 ≤ 1 ∧
    calculateFrequencyBasedStreak
      [mkEv (10 * msPerDay + 1) "A" 1 true, mkEv (9 * msPerDay + 1) "A" 1 true,
       mkEv (8 * msPerDay + 1) "A" 1 true, mkEv (7 * msPerDay + 1) "A" 1 true,
       mkEv (6 * msPerDay + 1) "A" 1 true]
      "A" 1 (10 * msPerDay + 900) = 5 :=
  ⟨by decide,
    streak_skip_rule_c1_amended.2
      [mkEv (10 * msPerDay + 1) "A" 1 true, mkEv (9 * msPerDay + 1) "A" 1 true,
       mkEv (8 * msPerDay + 1) "A" 1 true, mkEv (7 * msPerDay + 1) "A" 1 true,
       mkEv (6 * msPerDay + 1) "A" 1 true]
      "A" 1 (10 * msPerDay + 900) (by decide) (by decide) (by decide)⟩

/-- Two tracking rows that agree on the only columns the analytics read:
Timestamp (A), HabitID (B) and ActualCompletions (F).  Success (G) and every
other column may differ. -/
def obsEq (a b : Event) : Prop :=
  a.timestamp = b.timestamp ∧ a.habitId = b.habitId ∧
    a.actualCompletions = b.actualCompletions

lemma any_congr_obsEq (p : Event → Bool)
    (hp : ∀ a b, obsEq a b → p a = p b) :
    ∀ {l₁ l₂ : List Event}, List.Forall₂ obsEq l₁ l₂ → l₁.any p = l₂.any p := by
  intro l₁ l₂ h
  induction h with
  | nil => rfl
  | cons hab _ ih => simp [List.any_cons, hp _ _ hab, ih]

lemma filter_map_sum_congr_obsEq (p : Event → Bool) (f : Event → Nat)
    (hp : ∀ a b, obsEq a b → p a = p b)
    (hf : ∀ a b, obsEq a b → f a = f b) :
    ∀ {l₁ l₂ : List Event}, List.Forall₂ obsEq l₁ l₂ →
      ((l₁.filter p).map f).sum = ((l₂.filter p).map f).sum := by
  intro l₁ l₂ h
  induction h with
  | nil => rfl
  | cons hab _ ih =>
    rename_i a b l₁' l₂' _
    rw [List.filter_cons, List.filter_cons, hp a b hab]
    cases hq : p b with
    | false => simpa using ih
    | true => simp [hf a b hab, ih]

lemma contribution_congr_obsEq (a b : Event) (h : obsEq a b) :
    completionContribution a = completionContribution b := by
  unfold completionContribution
  rw [h.2.2]

lemma isEmpty_congr_obsEq {l₁ l₂ : List Event}
    (h : List.Forall₂ obsEq l₁ l₂) : l₁.isEmpty = l₂.isEmpty := by
  cases h with
  | nil => rfl
  | cons _ _ => rfl

lemma gHCFD_congr_obsEq {l₁ l₂ : List Event} (h : List.Forall₂ obsEq l₁ l₂)
    (habitId : String) (d : Int) :
    getHabitCompletionsForDate l₁ habitId d =
      getHabitCompletionsForDate l₂ habitId d := by
  rw [getHabitCompletionsForDate_eq_sum, getHabitCompletionsForDate_eq_sum]
  refine filter_map_sum_congr_obsEq _ _ ?_ contribution_congr_obsEq h
  intro a b hab
  rw [hab.1, hab.2.1]

lemma wasSucc_congr_obsEq {l₁ l₂ : List Event} (h : List.Forall₂ obsEq l₁ l₂)
    (habitId : String) (d : Int) (t : Nat) :
    wasHabitSuccessfulOnDate l₁ habitId d t = wasHabitSuccessfulOnDate l₂ habitId d t := by
  unfold wasHabitSuccessfulOnDate
  rw [gHCFD_congr_obsEq h]

lemma anyDay_congr_obsEq {l₁ l₂ : List Event} (h : List.Forall₂ obsEq l₁ l₂)
    (d : Int) :
    (l₁.any fun e => isSameDay e.timestamp d) =
      (l₂.any fun e => isSameDay e.timestamp d) := by
  refine any_congr_obsEq _ ?_ h
  intro a b hab
  rw [hab.1]

lemma streakFrom_congr_obsEq {l₁ l₂ : List Event} (h : List.Forall₂ obsEq l₁ l₂)
    (habitId : String) (t : Nat) (today : Int) :
    ∀ (fuel i streak : Nat),
      streakFrom l₁ habitId t today i fuel streak =
        streakFrom l₂ habitId t today i fuel streak := by
  intro fuel
  induction fuel with
  | zero => intro i streak; rfl
  | succ fuel ih =>
    intro i streak
    simp only [streakFrom, wasSucc_congr_obsEq h, anyDay_congr_obsEq h]
    cases wasHabitSuccessfulOnDate l₂ habitId (today - (i : Int) * msPerDay) t <;>
      simp [ih]

lemma dayHasData_congr_obsEq {l₁ l₂ : List Event} (h : List.Forall₂ obsEq l₁ l₂)
    (habitId : String) (d : Int) :
    dayHasData l₁ habitId d = dayHasData l₂ habitId d := by
  unfold dayHasData
  refine any_congr_obsEq _ ?_ h
  intro a b hab
  rw [hab.1, hab.2.1]

/-- C10: the snapshotted per-event Success boolean (column G) is never read
by the frequency-based analytics: on two logs whose rows agree on Timestamp,
HabitID and ActualCompletions — Success and all other columns arbitrary —
every analytics function returns identical results. -/
theorem success_flag_never_read_c10 (l₁ l₂ : List Event)
    (h : List.Forall₂ obsEq l₁ l₂) :
    (∀ (habitId : String) (d : Int),
      getHabitCompletionsForDate l₁ habitId d = getHabitCompletionsForDate l₂ habitId d) ∧
    (∀ (habitId : String) (t : Nat) (asOf : Int),
      calculateFrequencyBasedStreak l₁ habitId t asOf =
        calculateFrequencyBasedStreak l₂ habitId t asOf) ∧
    (∀ (habitId : String) (t : Nat) (s e : Int),
      calculateFrequencyBasedSuccessRate l₁ habitId t s e =
        calculateFrequencyBasedSuccessRate l₂ habitId t s e) ∧
    (∀ (habitId : String) (t : Nat) (asOf : Int),
      getFrequencyBasedThirtyDayView l₁ habitId t asOf =
        getFrequencyBasedThirtyDayView l₂ habitId t asOf) ∧
    (∀ (frequency : String) (s e : Int),
      calculateAverageCompletionsPerPeriod l₁ frequency s e =
        calculateAverageCompletionsPerPeriod l₂ frequency s e) := by
  refine ⟨gHCFD_congr_obsEq h, ?_, ?_, ?_, ?_⟩
  · intro habitId t asOf
    unfold calculateFrequencyBasedStreak
    rw [isEmpty_congr_obsEq h, streakFrom_congr_obsEq h]
  · intro habitId t s e
    rw [successRate_eq_counts, successRate_eq_counts]
    have hDD : ∀ n, daysWithData l₁ habitId s n = daysWithData l₂ habitId s n := by
      intro n
      unfold daysWithData
      rw [List.filter_congr (fun i _ => by rw [dayHasData_congr_obsEq h])]
    have hQQ : ∀ n, successfulDaysWithData l₁ habitId t s n =
        successfulDaysWithData l₂ habitId t s n := by
      intro n
      unfold successfulDaysWithData
      refine congrArg _ (List.filter_congr fun i _ => ?_)
      unfold daySuccessful
      rw [dayHasData_congr_obsEq h,
        ← getHabitCompletionsForDate_eq_day, ← getHabitCompletionsForDate_eq_day,
        gHCFD_congr_obsEq h]
    rw [hDD, hQQ]
  · intro habitId t asOf
    unfold getFrequencyBasedThirtyDayView
    refine List.map_congr_left fun j _ => ?_
    unfold thirtyDayIndicator
    rw [gHCFD_congr_obsEq h]
  · intro frequency s e
    rw [avg_eq_formula, avg_eq_formula]
    unfold totalCompletionsInWindow
    rw [filter_map_sum_congr_obsEq _ _ (fun a b hab => by rw [hab.1])
      contribution_congr_obsEq h]

/-- Witness for C10: two one-row logs differing only in the Success flag,
the habit name and the comment give the same streak. -/
theorem success_flag_never_read_c10_witness :
    List.Forall₂ obsEq [mkEv (10 * msPerDay) "A" 2 true]
      [⟨10 * msPerDay, "A", "other", "Weekly", 3, 2, false, "note", 0⟩] ∧
    calculateFrequencyBasedStreak [mkEv (10 * msPerDay) "A" 2 true] "A" 1
        (10 * msPerDay + 7) =
      calculateFrequencyBasedStreak
        [⟨10 * msPerDay, "A", "other", "Weekly", 3, 2, false, "note", 0⟩] "A" 1
        (10 * msPerDay + 7) :=
  have hf : List.Forall₂ obsEq [mkEv (10 * msPerDay) "A" 2 true]
      [⟨10 * msPerDay, "A", "other", "Weekly", 3, 2, false, "note", 0⟩] :=
    List.Forall₂.cons ⟨rfl, rfl, rfl⟩ List.Forall₂.nil
  ⟨hf, (success_flag_never_read_c10 _ _ hf).2.1 "A" 1 (10 * msPerDay + 7)⟩

end HabitTracker

